import Mathlib

/-!
# OTLP trace receiver: `Receiver.Export`

A shallow embedding of `receiver/otlpreceiver/internal/trace/otlp.go`.

`Export` is the only function with a body in that file.  Everything it calls
lives in other packages: `google.golang.org/grpc/codes` and
`google.golang.org/grpc/status` (the gRPC library, at the version the comment in
`Export` links to, v1.59.0), and the collector packages `consumererror`,
`consumer`, `ptrace`, `ptraceotlp` and `receiverhelper`.  Those are embedded
here as far as `Export` observes them.

Go `error` values and `*Status` pointers may be nil; both are embedded as
`Option`, with `none` for nil.
-/

namespace codes

/-- Code is `type Code uint32` of package `codes`. -/
abbrev Code := Nat

abbrev OK : Code := 0
abbrev Canceled : Code := 1
abbrev Unknown : Code := 2
abbrev InvalidArgument : Code := 3
abbrev DeadlineExceeded : Code := 4
abbrev NotFound : Code := 5
abbrev AlreadyExists : Code := 6
abbrev PermissionDenied : Code := 7
abbrev ResourceExhausted : Code := 8
abbrev FailedPrecondition : Code := 9
abbrev Aborted : Code := 10
abbrev OutOfRange : Code := 11
abbrev Unimplemented : Code := 12
abbrev Internal : Code := 13
abbrev Unavailable : Code := 14
abbrev DataLoss : Code := 15
abbrev Unauthenticated : Code := 16

/-- The `String` method of `codes.Code`: the name of a defined code, and
`Code(n)` for any other number. -/
def String (c : Code) : String :=
  match c with
  | 0 => "OK"
  | 1 => "Canceled"
  | 2 => "Unknown"
  | 3 => "InvalidArgument"
  | 4 => "DeadlineExceeded"
  | 5 => "NotFound"
  | 6 => "AlreadyExists"
  | 7 => "PermissionDenied"
  | 8 => "ResourceExhausted"
  | 9 => "FailedPrecondition"
  | 10 => "Aborted"
  | 11 => "OutOfRange"
  | 12 => "Unimplemented"
  | 13 => "Internal"
  | 14 => "Unavailable"
  | 15 => "DataLoss"
  | 16 => "Unauthenticated"
  | n => "Code(" ++ toString n ++ ")"

end codes

/-- Status is the content of a gRPC `*status.Status`: the three fields of the
underlying status message.  The detail payloads are kept as opaque strings. -/
structure Status where
  code : codes.Code
  message : String
  details : List String
deriving DecidableEq, Repr

/-- What a search for the method `GRPCStatus() *Status` finds on an error value,
in the order `status.FromError` searches: on the value itself (a type
assertion), else on an error it wraps (`errors.As`), else nowhere.  The
`Option` is the pointer the method returns, `none` for nil. -/
inductive GRPCStatusLookup where
  | absent
  | direct (gs : Option Status)
  | wrapped (gs : Option Status)
deriving DecidableEq, Repr

/-- A non-nil Go `error` value, as `Export` can observe it.  `Export` never looks
inside an error; it only asks three questions of it, and each field is the
answer to one: the text of `err.Error()`, what the `GRPCStatus()` search of
`status.FromError` finds, and whether `errors.As` finds the `permanent` marker
of `consumererror`.  Any Go error, of any type and wrapping depth, gives one such
record. -/
structure GoError where
  Error : String
  grpcstatus : GRPCStatusLookup
  permanent : Bool
deriving DecidableEq, Repr

/-- The non-nil status an error carries, on itself or on an error it wraps; `none`
when it carries no status, or only a nil one. -/
def GoError.boundStatus (e : GoError) : Option Status :=
  match e.grpcstatus with
  | .absent => none
  | .direct gs => gs
  | .wrapped gs => gs

namespace status

/-- The function `status.New(c, msg)`: a status with that code and message and no
details. -/
def New (c : codes.Code) (msg : String) : Status :=
  { code := c, message := msg, details := [] }

/-- The method `(*Status).String`, the text of a status error:
`rpc error: code = %s desc = %s`. -/
def String (s : Status) : String :=
  "rpc error: code = " ++ codes.String s.code ++ " desc = " ++ s.message

/-- The method `(*Status).Err`: nil when the code is `OK` (which is also the code
of a nil status), else a `*status.Error` holding the status.  That error reports
the status text, returns the status from its own `GRPCStatus()`, and wraps
nothing. -/
def Err (s : Option Status) : Option GoError :=
  match s with
  | none => none
  | some st =>
    if st.code == codes.OK then none
    else some { Error := String st, grpcstatus := .direct (some st), permanent := false }

/-- The function `status.FromError(err)`, returning `(s, ok)`.

* nil error: a nil status, `ok` true;
* the error itself has `GRPCStatus()`: that status and `ok` true, unless the
  method returns nil, which gives `Unknown` with the error text and `ok` false;
* an error it wraps has `GRPCStatus()`: that status with its message replaced by
  the whole `err.Error()` text and `ok` true, unless the method returns nil,
  which gives `Unknown` with the error text and `ok` false;
* otherwise `Unknown` with the error text and `ok` false.

A `*Status` made without an underlying status message (`&status.Status{}`) reads
as code `OK` with an empty message and is embedded as that value.  On an error
that only wraps such a status the library function does not return: it writes
the message into a nil message and panics.  This definition returns there as for
any other wrapped status of code `OK`.  The general theorems on what `Export`
returns for a status-bearing error assume a code other than `OK`; the one
evaluation at code `OK` is on a status found on the error itself, with a message,
where the library function returns. -/
def FromError (err : Option GoError) : Option Status × Bool :=
  match err with
  | none => (none, true)
  | some e =>
    match e.grpcstatus with
    | .direct (some gs) => (some gs, true)
    | .direct none => (some (New codes.Unknown e.Error), false)
    | .wrapped (some gs) => (some { gs with message := e.Error }, true)
    | .wrapped none => (some (New codes.Unknown e.Error), false)
    | .absent => (some (New codes.Unknown e.Error), false)

end status

namespace consumererror

/-- Modelled from the spec: `consumererror.IsPermanent` is not among the sources.
The spec calls it a capability query telling whether the pipeline error is marked
Permanent; it is false for nil. -/
def IsPermanent (err : Option GoError) : Bool :=
  match err with
  | none => false
  | some e => e.permanent

end consumererror

/-- A span; opaque to the receiver. -/
structure Span where
  name : String
deriving DecidableEq, Repr

/-- A request-scoped `context.Context`; an opaque handle. -/
structure Context where
  id : Nat
deriving DecidableEq, Repr

namespace ptrace

/-- Modelled from the spec: `ptrace.Traces` is not among the sources.  The spec
describes the trace batch as an opaque collection of spans that exposes only a
derived span count. -/
structure Traces where
  spans : List Span
deriving DecidableEq, Repr

/-- Modelled from the spec: the method `Traces.SpanCount`, the number of spans in
the batch. -/
def Traces.SpanCount (td : Traces) : Nat :=
  td.spans.length

end ptrace

namespace ptraceotlp

/-- Modelled from the spec: `ptraceotlp.ExportRequest` is not among the sources;
it holds the trace batch that `req.Traces()` returns. -/
structure ExportRequest where
  Traces : ptrace.Traces
deriving DecidableEq, Repr

/-- Modelled from the spec: `ptraceotlp.ExportResponse` is not among the sources.
The response of the protocol carries a partial-success record (a count of
rejected spans and a message); the spec calls the response of this handler
empty-bodied. -/
structure ExportResponse where
  rejectedSpans : Nat
  errorMessage : String
deriving DecidableEq, Repr

/-- Modelled from the spec: `ptraceotlp.NewExportResponse()`, the empty response. -/
def NewExportResponse : ExportResponse :=
  { rejectedSpans := 0, errorMessage := "" }

end ptraceotlp

namespace consumer

/-- Modelled from the spec: the downstream pipeline consumer,
`ConsumeTraces(context, batch) → error`; nil on success. -/
structure Traces where
  ConsumeTraces : Context → ptrace.Traces → Option GoError

end consumer

namespace receiverhelper

/-- Modelled from the spec: the observability reporter.  `StartTracesOp` returns
a derived context; `EndTracesOp` returns nothing and is seen only in the call
log. -/
structure ObsReport where
  StartTracesOp : Context → Context

end receiverhelper

/-- An external call made by `Export`: on the observability reporter and the
consumer (the receiver's two collaborators), and on the `status` and
`consumererror` packages, each with the arguments passed. -/
inductive Call where
  | StartTracesOp (ctx : Context)
  | ConsumeTraces (ctx : Context) (td : ptrace.Traces)
  | EndTracesOp (ctx : Context) (format : String) (numReceivedSpans : Nat)
      (err : Option GoError)
  | FromError (err : Option GoError)
  | IsPermanent (err : Option GoError)
  | New (c : codes.Code) (msg : String)
  | Err (s : Option Status)
deriving DecidableEq, Repr

/-- Whether a call is one on a collaborator of the receiver (reporter or
consumer), as opposed to a call of the status translation. -/
def Call.isCollaborator (c : Call) : Bool :=
  match c with
  | .StartTracesOp _ => true
  | .ConsumeTraces _ _ => true
  | .EndTracesOp _ _ _ _ => true
  | _ => false

/-- Whether a call is `ConsumeTraces`. -/
def Call.isConsumeTraces (c : Call) : Bool :=
  match c with
  | .ConsumeTraces _ _ => true
  | _ => false

/-- Whether a call is `StartTracesOp`. -/
def Call.isStartTracesOp (c : Call) : Bool :=
  match c with
  | .StartTracesOp _ => true
  | _ => false

/-- Whether a call is `EndTracesOp`. -/
def Call.isEndTracesOp (c : Call) : Bool :=
  match c with
  | .EndTracesOp _ _ _ _ => true
  | _ => false

/-- The constant `dataFormatProtobuf`. -/
def dataFormatProtobuf : String := "protobuf"

/-- The struct `Receiver`: the next consumer and the observability reporter. -/
structure Receiver where
  nextConsumer : consumer.Traces
  obsreport : receiverhelper.ObsReport

/-- What one run of `Export` produces: the two values it returns, and the
external calls it made, in program order. -/
structure ExportResult where
  resp : ptraceotlp.ExportResponse
  err : Option GoError
  calls : List Call
deriving DecidableEq, Repr

/-- The method `Receiver.Export`, statement by statement. -/
def Receiver.Export (r : Receiver) (ctx : Context) (req : ptraceotlp.ExportRequest) :
    ExportResult :=
  let td := req.Traces
  let spanCount := td.SpanCount
  if spanCount == 0 then
    { resp := ptraceotlp.NewExportResponse, err := none, calls := [] }
  else
    let ctx1 := r.obsreport.StartTracesOp ctx
    let err := r.nextConsumer.ConsumeTraces ctx1 td
    let calls := [Call.StartTracesOp ctx, Call.ConsumeTraces ctx1 td,
      Call.EndTracesOp ctx1 dataFormatProtobuf spanCount err]
    match err with
    | some e =>
      let fe := status.FromError (some e)
      if !fe.2 then
        let code := if consumererror.IsPermanent (some e) then codes.Internal
          else codes.Unavailable
        let s := status.New code e.Error
        { resp := ptraceotlp.NewExportResponse, err := status.Err (some s),
          calls := calls ++ [Call.FromError (some e), Call.IsPermanent (some e),
            Call.New code e.Error, Call.Err (some s)] }
      else
        { resp := ptraceotlp.NewExportResponse, err := status.Err fe.1,
          calls := calls ++ [Call.FromError (some e), Call.Err fe.1] }
    | none =>
      { resp := ptraceotlp.NewExportResponse, err := none, calls := calls }

/-- The status a returned error is made of: the status held by the
`*status.Error` that `Export` returns, `none` when `Export` returns a nil
error. -/
def returnedStatus (res : ExportResult) : Option Status :=
  match res.err with
  | none => none
  | some e => e.boundStatus

/-- A receiver whose consumer returns the given result for every call and whose
reporter derives the context with the next handle. -/
def fixedReceiver (result : Option GoError) : Receiver :=
  { nextConsumer := { ConsumeTraces := fun _ _ => result },
    obsreport := { StartTracesOp := fun c => { id := c.id + 1 } } }

/-- A request whose batch holds `n` spans. -/
def requestOf (n : Nat) : ptraceotlp.ExportRequest :=
  { Traces := { spans := List.replicate n { name := "span" } } }

/-- An error that wraps a status error of code `NotFound`, in the manner of
`fmt.Errorf("export failed: %w", status.Error(codes.NotFound, "no such tenant"))`:
its text is the whole wrapped text, and the status is found by `errors.As`. -/
def wrappedNotFound : GoError :=
  { Error := "export failed: rpc error: code = NotFound desc = no such tenant",
    grpcstatus := .wrapped (some ⟨codes.NotFound, "no such tenant", []⟩),
    permanent := false }

/-- An error of a type whose `GRPCStatus()` returns a non-nil status of code
`OK`. -/
def statusOKError : GoError :=
  { Error := "queue full",
    grpcstatus := .direct (some { code := codes.OK, message := "queue full", details := [] }),
    permanent := false }

/-! ## Shared lemmas on `Export` -/

theorem Export_of_zero (r : Receiver) (ctx : Context) (req : ptraceotlp.ExportRequest)
    (h : req.Traces.SpanCount = 0) :
    r.Export ctx req = { resp := ptraceotlp.NewExportResponse, err := none, calls := [] } := by
  unfold Receiver.Export
  simp [h]

theorem Export_of_nil (r : Receiver) (ctx : Context) (req : ptraceotlp.ExportRequest)
    (hn : 0 < req.Traces.SpanCount)
    (hc : r.nextConsumer.ConsumeTraces (r.obsreport.StartTracesOp ctx) req.Traces = none) :
    r.Export ctx req =
      { resp := ptraceotlp.NewExportResponse, err := none,
        calls := [Call.StartTracesOp ctx,
          Call.ConsumeTraces (r.obsreport.StartTracesOp ctx) req.Traces,
          Call.EndTracesOp (r.obsreport.StartTracesOp ctx) dataFormatProtobuf
            req.Traces.SpanCount none] } := by
  have h0 : req.Traces.SpanCount ≠ 0 := Nat.pos_iff_ne_zero.mp hn
  unfold Receiver.Export
  simp [h0, hc]

theorem FromError_of_unbound (e : GoError) (hs : e.boundStatus = none) :
    status.FromError (some e) = (some (status.New codes.Unknown e.Error), false) := by
  unfold GoError.boundStatus at hs
  cases hg : e.grpcstatus with
  | absent => simp [status.FromError, hg]
  | direct gs => rw [hg] at hs; subst hs; simp [status.FromError, hg]
  | wrapped gs => rw [hg] at hs; subst hs; simp [status.FromError, hg]

theorem FromError_of_bound (e : GoError) (pre : Status) (hs : e.boundStatus = some pre) :
    status.FromError (some e) =
      (some (match e.grpcstatus with
        | .wrapped _ => { pre with message := e.Error }
        | _ => pre), true) := by
  unfold GoError.boundStatus at hs
  cases hg : e.grpcstatus with
  | absent => rw [hg] at hs; cases hs
  | direct gs => rw [hg] at hs; subst hs; simp [status.FromError, hg]
  | wrapped gs => rw [hg] at hs; subst hs; simp [status.FromError, hg]

theorem Export_of_unbound (r : Receiver) (ctx : Context) (req : ptraceotlp.ExportRequest)
    (e : GoError) (hn : 0 < req.Traces.SpanCount)
    (hc : r.nextConsumer.ConsumeTraces (r.obsreport.StartTracesOp ctx) req.Traces = some e)
    (hs : e.boundStatus = none) :
    r.Export ctx req =
      { resp := ptraceotlp.NewExportResponse,
        err := status.Err (some (status.New
          (if e.permanent then codes.Internal else codes.Unavailable) e.Error)),
        calls := [Call.StartTracesOp ctx,
          Call.ConsumeTraces (r.obsreport.StartTracesOp ctx) req.Traces,
          Call.EndTracesOp (r.obsreport.StartTracesOp ctx) dataFormatProtobuf
            req.Traces.SpanCount (some e),
          Call.FromError (some e), Call.IsPermanent (some e),
          Call.New (if e.permanent then codes.Internal else codes.Unavailable) e.Error,
          Call.Err (some (status.New
            (if e.permanent then codes.Internal else codes.Unavailable) e.Error))] } := by
  have h0 : req.Traces.SpanCount ≠ 0 := Nat.pos_iff_ne_zero.mp hn
  unfold Receiver.Export
  simp [h0, hc, FromError_of_unbound e hs, consumererror.IsPermanent]

theorem Export_of_bound (r : Receiver) (ctx : Context) (req : ptraceotlp.ExportRequest)
    (e : GoError) (pre : Status) (hn : 0 < req.Traces.SpanCount)
    (hc : r.nextConsumer.ConsumeTraces (r.obsreport.StartTracesOp ctx) req.Traces = some e)
    (hs : e.boundStatus = some pre) :
    r.Export ctx req =
      { resp := ptraceotlp.NewExportResponse,
        err := status.Err (status.FromError (some e)).1,
        calls := [Call.StartTracesOp ctx,
          Call.ConsumeTraces (r.obsreport.StartTracesOp ctx) req.Traces,
          Call.EndTracesOp (r.obsreport.StartTracesOp ctx) dataFormatProtobuf
            req.Traces.SpanCount (some e),
          Call.FromError (some e), Call.Err (status.FromError (some e)).1] } := by
  have h0 : req.Traces.SpanCount ≠ 0 := Nat.pos_iff_ne_zero.mp hn
  have h2 : (status.FromError (some e)).2 = true := by rw [FromError_of_bound e pre hs]
  unfold Receiver.Export
  simp [h0, hc, h2]

theorem returnedStatus_Err (s : Status) (h : s.code ≠ codes.OK) (resp : ptraceotlp.ExportResponse)
    (calls : List Call) :
    returnedStatus { resp := resp, err := status.Err (some s), calls := calls } = some s := by
  simp [returnedStatus, status.Err, h, GoError.boundStatus]

/-- Apart from errors carrying a status of code `OK`, `Export` returns a non-nil
error exactly when the consumer does, for a batch of at least one span. -/
theorem Export_err_isSome_iff (r : Receiver) (ctx : Context) (req : ptraceotlp.ExportRequest)
    (hn : 0 < req.Traces.SpanCount)
    (hok : ∀ e, r.nextConsumer.ConsumeTraces (r.obsreport.StartTracesOp ctx) req.Traces = some e →
      e.boundStatus.map Status.code ≠ some codes.OK) :
    (r.Export ctx req).err ≠ none ↔
      r.nextConsumer.ConsumeTraces (r.obsreport.StartTracesOp ctx) req.Traces ≠ none := by
  cases hc : r.nextConsumer.ConsumeTraces (r.obsreport.StartTracesOp ctx) req.Traces with
  | none =>
    rw [Export_of_nil r ctx req hn hc]
  | some e =>
    have hk := hok e hc
    cases hs : e.boundStatus with
    | none =>
      rw [Export_of_unbound r ctx req e hn hc hs]
      cases e.permanent <;> simp [status.Err, status.New]
    | some pre =>
      have hpre : pre.code ≠ codes.OK := by
        intro h
        apply hk
        rw [hs]
        simp [h]
      rw [Export_of_bound r ctx req e pre hn hc hs, FromError_of_bound e pre hs]
      cases e.grpcstatus <;> simp [status.Err, hpre]

/-! ## The claims -/

/-- C1: for a request whose batch has no span, `Export` returns the empty
response and a nil error and makes no external call at all: neither
`StartTracesOp` nor `ConsumeTraces` nor `EndTracesOp`, whatever the consumer
and the reporter of the receiver are. -/
theorem Export_zero_spans (r : Receiver) (ctx : Context) (req : ptraceotlp.ExportRequest)
    (h : req.Traces.SpanCount = 0) :
    (r.Export ctx req).resp = ptraceotlp.NewExportResponse ∧
      (r.Export ctx req).err = none ∧ (r.Export ctx req).calls = [] := by
  rw [Export_of_zero r ctx req h]
  exact ⟨rfl, rfl, rfl⟩

theorem Export_zero_spans_witness :
    (requestOf 0).Traces.SpanCount = 0 ∧
      ((fixedReceiver (some ⟨"backend timeout", .absent, false⟩)).Export ⟨7⟩
          (requestOf 0)).resp = ptraceotlp.NewExportResponse ∧
      ((fixedReceiver (some ⟨"backend timeout", .absent, false⟩)).Export ⟨7⟩
          (requestOf 0)).err = none ∧
      ((fixedReceiver (some ⟨"backend timeout", .absent, false⟩)).Export ⟨7⟩
          (requestOf 0)).calls = [] :=
  ⟨by decide, Export_zero_spans _ ⟨7⟩ (requestOf 0) (by decide)⟩

/-- C2: when the batch has at least one span and the consumer returns an error
that carries no status and is marked Permanent, the error `Export` returns is the
status error of code `Internal` whose message is `err.Error()`. -/
theorem Export_permanent_Internal (r : Receiver) (ctx : Context)
    (req : ptraceotlp.ExportRequest) (e : GoError) (hn : 0 < req.Traces.SpanCount)
    (hc : r.nextConsumer.ConsumeTraces (r.obsreport.StartTracesOp ctx) req.Traces = some e)
    (hs : e.boundStatus = none) (hp : consumererror.IsPermanent (some e) = true) :
    (r.Export ctx req).err = status.Err (some (status.New codes.Internal e.Error)) ∧
      returnedStatus (r.Export ctx req) =
        some { code := codes.Internal, message := e.Error, details := [] } := by
  have hp2 : e.permanent = true := hp
  rw [Export_of_unbound r ctx req e hn hc hs]
  simp [hp2, returnedStatus, status.Err, status.New, GoError.boundStatus]

theorem Export_permanent_Internal_witness :
    0 < (requestOf 3).Traces.SpanCount ∧
      ((fixedReceiver (some ⟨"bad attribute", .absent, true⟩)).Export ⟨0⟩ (requestOf 3)).err =
        status.Err (some (status.New codes.Internal "bad attribute")) ∧
      returnedStatus ((fixedReceiver (some ⟨"bad attribute", .absent, true⟩)).Export ⟨0⟩
          (requestOf 3)) =
        some { code := codes.Internal, message := "bad attribute", details := [] } :=
  ⟨by decide,
    Export_permanent_Internal (fixedReceiver (some ⟨"bad attribute", .absent, true⟩)) ⟨0⟩
      (requestOf 3) ⟨"bad attribute", .absent, true⟩ (by decide) rfl rfl rfl⟩

/-- C3: when the batch has at least one span and the consumer returns an error
that carries no status and is not marked Permanent, the error `Export` returns is
the status error of code `Unavailable` whose message is `err.Error()`. -/
theorem Export_nonpermanent_Unavailable (r : Receiver) (ctx : Context)
    (req : ptraceotlp.ExportRequest) (e : GoError) (hn : 0 < req.Traces.SpanCount)
    (hc : r.nextConsumer.ConsumeTraces (r.obsreport.StartTracesOp ctx) req.Traces = some e)
    (hs : e.boundStatus = none) (hp : consumererror.IsPermanent (some e) = false) :
    (r.Export ctx req).err = status.Err (some (status.New codes.Unavailable e.Error)) ∧
      returnedStatus (r.Export ctx req) =
        some { code := codes.Unavailable, message := e.Error, details := [] } := by
  have hp2 : e.permanent = false := hp
  rw [Export_of_unbound r ctx req e hn hc hs]
  simp [hp2, returnedStatus, status.Err, status.New, GoError.boundStatus]

theorem Export_nonpermanent_Unavailable_witness :
    0 < (requestOf 1).Traces.SpanCount ∧
      ((fixedReceiver (some ⟨"backend timeout", .absent, false⟩)).Export ⟨0⟩
          (requestOf 1)).err =
        status.Err (some (status.New codes.Unavailable "backend timeout")) ∧
      returnedStatus ((fixedReceiver (some ⟨"backend timeout", .absent, false⟩)).Export ⟨0⟩
          (requestOf 1)) =
        some { code := codes.Unavailable, message := "backend timeout", details := [] } :=
  ⟨by decide,
    Export_nonpermanent_Unavailable (fixedReceiver (some ⟨"backend timeout", .absent, false⟩))
      ⟨0⟩ (requestOf 1) ⟨"backend timeout", .absent, false⟩ (by decide) rfl rfl rfl⟩

/-- C4, as stated, fails: for an error that merely wraps a status-bearing error
(code `NotFound`, message `no such tenant`), the status `Export` returns has the
same code but not the same message; the message is the text of the wrapping
error. -/
theorem Export_wrapped_status_message_replaced :
    0 < (requestOf 2).Traces.SpanCount ∧
      wrappedNotFound.boundStatus =
        some { code := codes.NotFound, message := "no such tenant", details := [] } ∧
      returnedStatus ((fixedReceiver (some wrappedNotFound)).Export ⟨0⟩ (requestOf 2)) =
        some { code := codes.NotFound,
               message := "export failed: rpc error: code = NotFound desc = no such tenant",
               details := [] } ∧
      returnedStatus ((fixedReceiver (some wrappedNotFound)).Export ⟨0⟩ (requestOf 2)) ≠
        some { code := codes.NotFound, message := "no such tenant", details := [] } := by
  decide

/-- C4, amended: when the batch has at least one span and the consumer returns an
error carrying a status `pre` whose code is not `OK`, the error `Export` returns is
the status error of: `pre` itself (code, message and details) when the error
implements `GRPCStatus()` directly; and `pre` with its message replaced by
`err.Error()` when the error only wraps a status-bearing error.  The result
depends on the error text and the status found, not on the Permanent marking. -/
theorem Export_bound_status_passthrough (r : Receiver) (ctx : Context)
    (req : ptraceotlp.ExportRequest) (e : GoError) (pre : Status)
    (hn : 0 < req.Traces.SpanCount)
    (hc : r.nextConsumer.ConsumeTraces (r.obsreport.StartTracesOp ctx) req.Traces = some e)
    (hs : e.boundStatus = some pre) (hok : pre.code ≠ codes.OK) :
    (r.Export ctx req).err =
        status.Err (some (match e.grpcstatus with
          | .wrapped _ => { pre with message := e.Error }
          | _ => pre)) ∧
      returnedStatus (r.Export ctx req) =
        some (match e.grpcstatus with
          | .wrapped _ => { pre with message := e.Error }
          | _ => pre) := by
  rw [Export_of_bound r ctx req e pre hn hc hs, FromError_of_bound e pre hs]
  refine ⟨rfl, ?_⟩
  apply returnedStatus_Err
  cases e.grpcstatus <;> exact hok

theorem Export_bound_status_passthrough_witness :
    0 < (requestOf 2).Traces.SpanCount ∧
      ((fixedReceiver (some ⟨"rpc error: code = ResourceExhausted desc = queue full",
          .direct (some ⟨codes.ResourceExhausted, "queue full", ["retry in 5s"]⟩),
          true⟩)).Export ⟨0⟩ (requestOf 2)).err =
        status.Err (some ⟨codes.ResourceExhausted, "queue full", ["retry in 5s"]⟩) ∧
      returnedStatus ((fixedReceiver (some ⟨"rpc error: code = ResourceExhausted desc = queue full",
          .direct (some ⟨codes.ResourceExhausted, "queue full", ["retry in 5s"]⟩),
          true⟩)).Export ⟨0⟩ (requestOf 2)) =
        some ⟨codes.ResourceExhausted, "queue full", ["retry in 5s"]⟩ :=
  ⟨by decide,
    Export_bound_status_passthrough
      (fixedReceiver (some ⟨"rpc error: code = ResourceExhausted desc = queue full",
          .direct (some ⟨codes.ResourceExhausted, "queue full", ["retry in 5s"]⟩), true⟩))
      ⟨0⟩ (requestOf 2)
      ⟨"rpc error: code = ResourceExhausted desc = queue full",
          .direct (some ⟨codes.ResourceExhausted, "queue full", ["retry in 5s"]⟩), true⟩
      ⟨codes.ResourceExhausted, "queue full", ["retry in 5s"]⟩ (by decide) rfl rfl (by decide)⟩

/-- C5, the failing input: the batch has 3 spans and the consumer returns a
non-nil error whose `GRPCStatus()` gives a status of code `OK`.  `EndTracesOp` is
called with that error, yet `Export` returns a nil error. -/
theorem Export_OK_status_error_dropped :
    0 < (requestOf 3).Traces.SpanCount ∧
      (fixedReceiver (some statusOKError)).nextConsumer.ConsumeTraces
        ((fixedReceiver (some statusOKError)).obsreport.StartTracesOp ⟨0⟩)
        (requestOf 3).Traces = some statusOKError ∧
      Call.EndTracesOp ⟨1⟩ "protobuf" 3 (some statusOKError) ∈
        ((fixedReceiver (some statusOKError)).Export ⟨0⟩ (requestOf 3)).calls ∧
      ((fixedReceiver (some statusOKError)).Export ⟨0⟩ (requestOf 3)).err = none := by
  decide

/-- C6: when the batch has `n > 0` spans and the consumer returns nil, `Export`
returns the empty response and a nil error, and its external calls are exactly
`StartTracesOp`, `ConsumeTraces`, `EndTracesOp` with format `protobuf`, count `n`
and a nil error. -/
theorem Export_success_trace (r : Receiver) (ctx : Context) (req : ptraceotlp.ExportRequest)
    (hn : 0 < req.Traces.SpanCount)
    (hc : r.nextConsumer.ConsumeTraces (r.obsreport.StartTracesOp ctx) req.Traces = none) :
    (r.Export ctx req).resp = ptraceotlp.NewExportResponse ∧
      (r.Export ctx req).err = none ∧
      (r.Export ctx req).calls =
        [Call.StartTracesOp ctx,
          Call.ConsumeTraces (r.obsreport.StartTracesOp ctx) req.Traces,
          Call.EndTracesOp (r.obsreport.StartTracesOp ctx) "protobuf"
            req.Traces.SpanCount none] := by
  rw [Export_of_nil r ctx req hn hc]
  exact ⟨rfl, rfl, rfl⟩

theorem Export_success_trace_witness :
    0 < (requestOf 5).Traces.SpanCount ∧
      ((fixedReceiver none).Export ⟨0⟩ (requestOf 5)).resp = ptraceotlp.NewExportResponse ∧
      ((fixedReceiver none).Export ⟨0⟩ (requestOf 5)).err = none ∧
      ((fixedReceiver none).Export ⟨0⟩ (requestOf 5)).calls =
        [Call.StartTracesOp ⟨0⟩, Call.ConsumeTraces ⟨1⟩ (requestOf 5).Traces,
          Call.EndTracesOp ⟨1⟩ "protobuf" 5 none] :=
  ⟨by decide, Export_success_trace (fixedReceiver none) ⟨0⟩ (requestOf 5) (by decide) rfl⟩

/-- C7: when the batch has `n > 0` spans and the consumer returns a non-nil error
`e` of any kind, the calls of `Export` hold exactly one `ConsumeTraces`, exactly
one `StartTracesOp` and exactly one `EndTracesOp`, and that `EndTracesOp` carries
format `protobuf`, count `n` and the consumer's own error `e`. -/
theorem Export_failure_single_calls (r : Receiver) (ctx : Context)
    (req : ptraceotlp.ExportRequest) (e : GoError) (hn : 0 < req.Traces.SpanCount)
    (hc : r.nextConsumer.ConsumeTraces (r.obsreport.StartTracesOp ctx) req.Traces = some e) :
    (r.Export ctx req).calls.filter Call.isConsumeTraces =
        [Call.ConsumeTraces (r.obsreport.StartTracesOp ctx) req.Traces] ∧
      (r.Export ctx req).calls.filter Call.isStartTracesOp = [Call.StartTracesOp ctx] ∧
      (r.Export ctx req).calls.filter Call.isEndTracesOp =
        [Call.EndTracesOp (r.obsreport.StartTracesOp ctx) "protobuf"
          req.Traces.SpanCount (some e)] := by
  cases hs : e.boundStatus with
  | none =>
    rw [Export_of_unbound r ctx req e hn hc hs]
    simp [List.filter, Call.isConsumeTraces, Call.isStartTracesOp, Call.isEndTracesOp,
      dataFormatProtobuf]
  | some pre =>
    rw [Export_of_bound r ctx req e pre hn hc hs]
    simp [List.filter, Call.isConsumeTraces, Call.isStartTracesOp, Call.isEndTracesOp,
      dataFormatProtobuf]

theorem Export_failure_single_calls_witness :
    0 < (requestOf 2).Traces.SpanCount ∧
      ((fixedReceiver (some ⟨"context canceled", .absent, false⟩)).Export ⟨4⟩
          (requestOf 2)).calls.filter Call.isConsumeTraces =
        [Call.ConsumeTraces ⟨5⟩ (requestOf 2).Traces] ∧
      ((fixedReceiver (some ⟨"context canceled", .absent, false⟩)).Export ⟨4⟩
          (requestOf 2)).calls.filter Call.isStartTracesOp = [Call.StartTracesOp ⟨4⟩] ∧
      ((fixedReceiver (some ⟨"context canceled", .absent, false⟩)).Export ⟨4⟩
          (requestOf 2)).calls.filter Call.isEndTracesOp =
        [Call.EndTracesOp ⟨5⟩ "protobuf" 2 (some ⟨"context canceled", .absent, false⟩)] :=
  ⟨by decide,
    Export_failure_single_calls (fixedReceiver (some ⟨"context canceled", .absent, false⟩))
      ⟨4⟩ (requestOf 2) ⟨"context canceled", .absent, false⟩ (by decide) rfl⟩

/-- C8, as stated, fails: a Permanent error without a status, returned for a batch
of 3 spans, is converted to a status of code `Internal`, not `InvalidArgument`. -/
theorem Export_permanent_not_InvalidArgument :
    0 < (requestOf 3).Traces.SpanCount ∧
      consumererror.IsPermanent (some ⟨"bad attribute", .absent, true⟩) = true ∧
      (returnedStatus ((fixedReceiver (some ⟨"bad attribute", .absent, true⟩)).Export ⟨0⟩
          (requestOf 3))).map Status.code = some codes.Internal ∧
      (returnedStatus ((fixedReceiver (some ⟨"bad attribute", .absent, true⟩)).Export ⟨0⟩
          (requestOf 3))).map Status.code ≠ some codes.InvalidArgument := by
  decide

/-- C8, amended: when the batch has at least one span and the consumer returns an
error marked Permanent, the code of the status `Export` returns is `Internal` when
the error carries no status, and the code of the carried status when it carries
one (of a code other than `OK`); so it is `InvalidArgument` only for an error
that carries a status of that code. -/
theorem Export_permanent_code (r : Receiver) (ctx : Context) (req : ptraceotlp.ExportRequest)
    (e : GoError) (hn : 0 < req.Traces.SpanCount)
    (hc : r.nextConsumer.ConsumeTraces (r.obsreport.StartTracesOp ctx) req.Traces = some e)
    (hp : consumererror.IsPermanent (some e) = true)
    (hok : e.boundStatus.map Status.code ≠ some codes.OK) :
    (returnedStatus (r.Export ctx req)).map Status.code =
      some (match e.boundStatus with
        | none => codes.Internal
        | some pre => pre.code) := by
  have hp2 : e.permanent = true := hp
  cases hs : e.boundStatus with
  | none =>
    rw [Export_of_unbound r ctx req e hn hc hs]
    simp [hp2, returnedStatus, status.Err, status.New, GoError.boundStatus]
  | some pre =>
    have hpre : pre.code ≠ codes.OK := by
      intro h
      apply hok
      rw [hs]
      simp [h]
    rw [Export_of_bound r ctx req e pre hn hc hs, FromError_of_bound e pre hs]
    rw [returnedStatus_Err _ (by cases e.grpcstatus <;> exact hpre)]
    cases e.grpcstatus <;> rfl

theorem Export_permanent_code_witness :
    0 < (requestOf 1).Traces.SpanCount ∧
      (returnedStatus ((fixedReceiver (some
          ⟨"Permanent error: rpc error: code = InvalidArgument desc = bad span",
            .wrapped (some ⟨codes.InvalidArgument, "bad span", []⟩), true⟩)).Export ⟨0⟩
          (requestOf 1))).map Status.code = some codes.InvalidArgument :=
  ⟨by decide,
    Export_permanent_code
      (fixedReceiver (some
          ⟨"Permanent error: rpc error: code = InvalidArgument desc = bad span",
            .wrapped (some ⟨codes.InvalidArgument, "bad span", []⟩), true⟩))
      ⟨0⟩ (requestOf 1)
      ⟨"Permanent error: rpc error: code = InvalidArgument desc = bad span",
        .wrapped (some ⟨codes.InvalidArgument, "bad span", []⟩), true⟩
      (by decide) rfl rfl (by decide)⟩

/-- C9, as stated, fails: for a consumer error that carries a status of code
`Unknown`, `Export` returns an error whose status has code `Unknown`, which is
outside the set of `OK`, `InvalidArgument`, `Unavailable` and `Internal`. -/
theorem Export_returns_code_outside_set :
    0 < (requestOf 1).Traces.SpanCount ∧
      returnedStatus ((fixedReceiver (some ⟨"rpc error: code = Unknown desc = boom",
          .direct (some ⟨codes.Unknown, "boom", []⟩), false⟩)).Export ⟨0⟩ (requestOf 1)) =
        some ⟨codes.Unknown, "boom", []⟩ ∧
      codes.Unknown ∉
        [codes.OK, codes.InvalidArgument, codes.Unavailable, codes.Internal] := by
  decide

/-- C9, amended: for every request and every consumer result other than an error
carrying a status of code `OK`, `Export` returns the empty response, and either a
nil error or the status error of a status `s` whose code is not `OK` and is:
`Unavailable` or `Internal` when the consumer's error carries no status; the code
of the carried status, whatever it is, when it carries one. -/
theorem Export_outcome_codes (r : Receiver) (ctx : Context) (req : ptraceotlp.ExportRequest)
    (res : Option GoError)
    (hc : r.nextConsumer.ConsumeTraces (r.obsreport.StartTracesOp ctx) req.Traces = res)
    (hok : (res.bind GoError.boundStatus).map Status.code ≠ some codes.OK) :
    (r.Export ctx req).resp = ptraceotlp.NewExportResponse ∧
      ((r.Export ctx req).err = none ∨
        ∃ s e, res = some e ∧
          (r.Export ctx req).err = status.Err (some s) ∧
          returnedStatus (r.Export ctx req) = some s ∧
          s.code ≠ codes.OK ∧
          ((e.boundStatus = none ∧ (s.code = codes.Unavailable ∨ s.code = codes.Internal)) ∨
            ∃ pre, e.boundStatus = some pre ∧ s.code = pre.code)) := by
  rcases Nat.eq_zero_or_pos req.Traces.SpanCount with h0 | hn
  · rw [Export_of_zero r ctx req h0]
    exact ⟨rfl, Or.inl rfl⟩
  · cases res with
    | none =>
      rw [Export_of_nil r ctx req hn hc]
      exact ⟨rfl, Or.inl rfl⟩
    | some e =>
      cases hs : e.boundStatus with
      | none =>
        rw [Export_of_unbound r ctx req e hn hc hs]
        refine ⟨rfl, Or.inr ⟨status.New (if e.permanent then codes.Internal
          else codes.Unavailable) e.Error, e, rfl, rfl, ?_, ?_, Or.inl ⟨hs, ?_⟩⟩⟩
        · apply returnedStatus_Err
          cases e.permanent <;> simp [status.New]
        · cases e.permanent <;> simp [status.New]
        · cases e.permanent <;> simp [status.New]
      | some pre =>
        have hpre : pre.code ≠ codes.OK := by
          intro h
          apply hok
          simp [hs, h]
        rw [Export_of_bound r ctx req e pre hn hc hs, FromError_of_bound e pre hs]
        refine ⟨rfl, Or.inr ⟨_, e, rfl, rfl, ?_, ?_, Or.inr ⟨pre, hs, ?_⟩⟩⟩
        · apply returnedStatus_Err
          cases e.grpcstatus <;> exact hpre
        · cases e.grpcstatus <;> exact hpre
        · cases e.grpcstatus <;> rfl

theorem Export_outcome_codes_witness :
    ((some (⟨"rpc error: code = DataLoss desc = disk gone",
          .direct (some ⟨codes.DataLoss, "disk gone", []⟩), false⟩ : GoError)).bind
        GoError.boundStatus).map Status.code ≠ some codes.OK ∧
      ((fixedReceiver (some ⟨"rpc error: code = DataLoss desc = disk gone",
          .direct (some ⟨codes.DataLoss, "disk gone", []⟩), false⟩)).Export ⟨0⟩
          (requestOf 2)).resp = ptraceotlp.NewExportResponse ∧
      (((fixedReceiver (some ⟨"rpc error: code = DataLoss desc = disk gone",
          .direct (some ⟨codes.DataLoss, "disk gone", []⟩), false⟩)).Export ⟨0⟩
          (requestOf 2)).err = none ∨
        ∃ s e, some (⟨"rpc error: code = DataLoss desc = disk gone",
            .direct (some ⟨codes.DataLoss, "disk gone", []⟩), false⟩ : GoError) = some e ∧
          ((fixedReceiver (some ⟨"rpc error: code = DataLoss desc = disk gone",
            .direct (some ⟨codes.DataLoss, "disk gone", []⟩), false⟩)).Export ⟨0⟩
            (requestOf 2)).err = status.Err (some s) ∧
          returnedStatus ((fixedReceiver (some ⟨"rpc error: code = DataLoss desc = disk gone",
            .direct (some ⟨codes.DataLoss, "disk gone", []⟩), false⟩)).Export ⟨0⟩
            (requestOf 2)) = some s ∧
          s.code ≠ codes.OK ∧
          ((e.boundStatus = none ∧ (s.code = codes.Unavailable ∨ s.code = codes.Internal)) ∨
            ∃ pre, e.boundStatus = some pre ∧ s.code = pre.code)) :=
  ⟨by decide,
    Export_outcome_codes
      (fixedReceiver (some ⟨"rpc error: code = DataLoss desc = disk gone",
          .direct (some ⟨codes.DataLoss, "disk gone", []⟩), false⟩))
      ⟨0⟩ (requestOf 2)
      (some ⟨"rpc error: code = DataLoss desc = disk gone",
          .direct (some ⟨codes.DataLoss, "disk gone", []⟩), false⟩)
      rfl (by decide)⟩

/-- C10: when the batch has at least one span, the first three calls of `Export`
are, in this order, `StartTracesOp` on the caller's context, `ConsumeTraces` on
the context `StartTracesOp` returned and on the batch of the request, and
`EndTracesOp` on that same derived context with the consumer's result; every
call after these three is a call of the status translation, none on the reporter
or the consumer. -/
theorem Export_call_order (r : Receiver) (ctx : Context) (req : ptraceotlp.ExportRequest)
    (hn : 0 < req.Traces.SpanCount) :
    (r.Export ctx req).calls.take 3 =
        [Call.StartTracesOp ctx,
          Call.ConsumeTraces (r.obsreport.StartTracesOp ctx) req.Traces,
          Call.EndTracesOp (r.obsreport.StartTracesOp ctx) "protobuf" req.Traces.SpanCount
            (r.nextConsumer.ConsumeTraces (r.obsreport.StartTracesOp ctx) req.Traces)] ∧
      ∀ c ∈ (r.Export ctx req).calls.drop 3, c.isCollaborator = false := by
  cases hc : r.nextConsumer.ConsumeTraces (r.obsreport.StartTracesOp ctx) req.Traces with
  | none =>
    rw [Export_of_nil r ctx req hn hc]
    simp [dataFormatProtobuf]
  | some e =>
    cases hs : e.boundStatus with
    | none =>
      rw [Export_of_unbound r ctx req e hn hc hs]
      simp [dataFormatProtobuf, Call.isCollaborator]
    | some pre =>
      rw [Export_of_bound r ctx req e pre hn hc hs]
      simp [dataFormatProtobuf, Call.isCollaborator]

theorem Export_call_order_witness :
    0 < (requestOf 4).Traces.SpanCount ∧
      ((fixedReceiver (some ⟨"bad attribute", .absent, true⟩)).Export ⟨10⟩
          (requestOf 4)).calls.take 3 =
        [Call.StartTracesOp ⟨10⟩, Call.ConsumeTraces ⟨11⟩ (requestOf 4).Traces,
          Call.EndTracesOp ⟨11⟩ "protobuf" 4 (some ⟨"bad attribute", .absent, true⟩)] ∧
      ∀ c ∈ ((fixedReceiver (some ⟨"bad attribute", .absent, true⟩)).Export ⟨10⟩
          (requestOf 4)).calls.drop 3, c.isCollaborator = false :=
  ⟨by decide,
    Export_call_order (fixedReceiver (some ⟨"bad attribute", .absent, true⟩)) ⟨10⟩
      (requestOf 4) (by decide)⟩
